import Mathlib

/-!
Verification of the `aws-log-sentinel` redaction core
(`src/redaction/engine.py`, `src/redaction/base_profile.py`,
`src/redaction/profiles/us_global.py`).

The development embeds, shallowly:
  * a backtracking regular-expression matcher with Python `re` semantics
    for the constructs used by the built-in patterns (character classes,
    ordered alternation, greedy/lazy bounded repetition, capture groups,
    negative lookahead, word boundaries, case-insensitive matching,
    `re.sub`-style global substitution with group references in the
    replacement template);
  * the thirteen `RedactionPattern`s of `USGlobalProfile.get_patterns`;
  * the `RedactionEngine` (profile dict with insert-or-replace-in-place
    semantics, scrubadub stage with exception recovery, per-pattern
    exception recovery, changed-flag computation, batch mapping).

Fallible calls (`scrubadub.Scrubber.clean`, `Pattern.sub`) are embedded as
`Option`-returning functions: `none` models a raised exception, which the
engine catches exactly where the Python `try`/`except` blocks sit.
-/

namespace LogSentinel

/-- Regular-expression abstract syntax, covering exactly the constructs
appearing in `us_global.py`.  `cls neg rs` is a character class given by
inclusive ranges (negated when `neg`); `rep lo hi lazy r` is `r{lo,hi}`
(`hi = none` meaning unbounded), lazy when `lazy`; `grp i r` is capturing
group number `i`; `nla r` is negative lookahead `(?!r)`; `wb` is `\b`. -/
inductive RE : Type where
  | eps : RE
  | cls : Bool → List (Char × Char) → RE
  | seq : RE → RE → RE
  | alt : RE → RE → RE
  | rep : Nat → Option Nat → Bool → RE → RE
  | grp : Nat → RE → RE
  | nla : RE → RE
  | wb : RE

/-- Captures recorded during a match: group number paired with the
captured characters.  Lookup takes the first (most recent) entry. -/
abbrev Caps := List (Nat × List Char)

/-- Python `\w` over ASCII: letters, digits, underscore. -/
def isWordChar (c : Char) : Bool :=
  (('a' ≤ c && c ≤ 'z') || ('A' ≤ c && c ≤ 'Z') || ('0' ≤ c && c ≤ '9') || c = '_')

/-- Membership of `c` in a list of inclusive ranges. -/
def inRanges (rs : List (Char × Char)) (c : Char) : Bool :=
  rs.any (fun p => p.1 ≤ c && c ≤ p.2)

/-- Character-class test, honouring negation and `re.IGNORECASE`
(case-insensitive classes accept a character if the character itself or
one of its case variants is in the class, as CPython folds both sides). -/
def clsMatch (ci neg : Bool) (rs : List (Char × Char)) (c : Char) : Bool :=
  let hit :=
    if ci then inRanges rs c || inRanges rs c.toLower || inRanges rs c.toUpper
    else inRanges rs c
  if neg then !hit else hit

/-- Decrement an optional repetition bound. -/
def decMax : Option Nat → Option Nat
  | none => none
  | some n => some (n - 1)

/-- Backtracking matcher in continuation-passing style, mirroring
CPython's `sre` engine order: alternation tries the left branch first,
greedy repetition prefers more iterations, lazy repetition fewer; a
repetition body that consumes nothing ends the iteration.  `rest` is the
unread input, `prev` the character just before it (for `\b`), `k` the
continuation receiving the state after this node.  `fuel` bounds the
recursion; every concrete evaluation in this file is given ample fuel,
and the expected-output equalities would fail if it ever ran out. -/
def mrun (ci : Bool) :
    Nat → RE → List Char → Option Char → Caps →
    (List Char → Option Char → Caps → Option (List Char × Caps)) →
    Option (List Char × Caps)
  | 0, _, _, _, _, _ => none
  | fuel+1, re, rest, prev, caps, k =>
    match re with
    | .eps => k rest prev caps
    | .cls neg rs =>
      match rest with
      | [] => none
      | c :: cs => if clsMatch ci neg rs c then k cs (some c) caps else none
    | .seq a b =>
      mrun ci fuel a rest prev caps (fun r2 p2 c2 => mrun ci fuel b r2 p2 c2 k)
    | .alt a b =>
      match mrun ci fuel a rest prev caps k with
      | some res => some res
      | none => mrun ci fuel b rest prev caps k
    | .rep lo hi lz r =>
      match lo with
      | m+1 =>
        mrun ci fuel r rest prev caps (fun r2 p2 c2 =>
          mrun ci fuel (.rep m (decMax hi) lz r) r2 p2 c2 k)
      | 0 =>
        if hi = some 0 then k rest prev caps
        else
          let more := mrun ci fuel r rest prev caps (fun r2 p2 c2 =>
            if r2.length = rest.length then k r2 p2 c2
            else mrun ci fuel (.rep 0 (decMax hi) lz r) r2 p2 c2 k)
          if lz then
            match k rest prev caps with
            | some res => some res
            | none => more
          else
            match more with
            | some res => some res
            | none => k rest prev caps
    | .grp i r =>
      mrun ci fuel r rest prev caps (fun r2 p2 c2 =>
        k r2 p2 ((i, rest.take (rest.length - r2.length)) :: c2))
    | .nla r =>
      match mrun ci fuel r rest prev caps (fun r2 _ c2 => some (r2, c2)) with
      | some _ => none
      | none => k rest prev caps
    | .wb =>
      let pw := match prev with | none => false | some c => isWordChar c
      let nw := match rest with | [] => false | c :: _ => isWordChar c
      if pw ≠ nw then k rest prev caps else none

/-- Fuel supplied to each anchored match attempt. -/
def matchFuel (rest : List Char) : Nat := 4000 + 40 * rest.length

/-- Anchored match attempt at the start of `rest`; returns the unread
suffix and the captures on success. -/
def matchAt (ci : Bool) (re : RE) (rest : List Char) (prev : Option Char) :
    Option (List Char × Caps) :=
  mrun ci (matchFuel rest) re rest prev [] (fun r2 _ c2 => some (r2, c2))

/-- Does the pattern match anywhere in the input (Python `re.search`)? -/
def reSearchAux (ci : Bool) (re : RE) : List Char → Option Char → Bool
  | rest, prev =>
    match matchAt ci re rest prev with
    | some _ => true
    | none =>
      match rest with
      | [] => false
      | c :: cs => reSearchAux ci re cs (some c)

/-- `re.search` as a Boolean over a character list. -/
def reSearch (ci : Bool) (re : RE) (s : List Char) : Bool :=
  reSearchAux ci re s none

/-- One item of a substitution template: a literal run or a group
reference (`\1`). -/
inductive Tpl : Type where
  | lit : List Char → Tpl
  | ref : Nat → Tpl

/-- Expand a replacement template against captures; an unmatched group is
replaced by the empty string, as CPython `re.sub` does since 3.5. -/
def expandTpl (caps : Caps) : List Tpl → List Char
  | [] => []
  | .lit l :: rest => l ++ expandTpl caps rest
  | .ref i :: rest =>
    (match caps.find? (fun p => p.1 = i) with
     | some p => p.2
     | none => []) ++ expandTpl caps rest

/-- Global substitution sweep (Python `re.sub`): scan left to right, at
each position try an anchored match; on success emit the expanded
template and resume after the match (copying one character through on a
zero-width match), otherwise copy one character and advance.  `fuel`
bounds the number of scan steps and is always instantiated with more
steps than the input has characters. -/
def reSubAllAux (ci : Bool) (re : RE) (tpl : List Tpl) :
    Nat → List Char → Option Char → List Char
  | 0, rest, _ => rest
  | fuel+1, rest, prev =>
    match matchAt ci re rest prev with
    | some (rest2, caps) =>
      let len := rest.length - rest2.length
      let exp := expandTpl caps tpl
      if len = 0 then
        match rest2 with
        | [] => exp
        | c :: cs => exp ++ c :: reSubAllAux ci re tpl fuel cs (some c)
      else
        exp ++ reSubAllAux ci re tpl fuel rest2 (rest.take len).getLast?
    | none =>
      match rest with
      | [] => []
      | c :: cs => c :: reSubAllAux ci re tpl fuel cs (some c)

/-- `re.sub(pattern, template, s)` over a character list. -/
def reSubAll (ci : Bool) (re : RE) (tpl : List Tpl) (s : List Char) : List Char :=
  reSubAllAux ci re tpl (s.length + 1) s none

/-! ### Regex construction helpers -/

/-- Single literal character. -/
def chr (c : Char) : RE := .cls false [(c, c)]

/-- Literal string, one class node per character. -/
def strLit (s : String) : RE := s.data.foldr (fun c acc => RE.seq (chr c) acc) RE.eps

/-- Concatenation of a list of nodes. -/
def rcat (l : List RE) : RE := l.foldr RE.seq RE.eps

/-- Ordered alternation of a list of nodes (leftmost branch preferred). -/
def ralt : List RE → RE
  | [] => RE.eps
  | [r] => r
  | r :: rs => RE.alt r (ralt rs)

/-- `r{n}`. -/
def rexact (n : Nat) (r : RE) : RE := .rep n (some n) false r

/-- `r?` (greedy). -/
def ropt (r : RE) : RE := .rep 0 (some 1) false r

/-- `r+` (greedy). -/
def rplus (r : RE) : RE := .rep 1 none false r

/-- `r{n,}` (greedy). -/
def rmin (n : Nat) (r : RE) : RE := .rep n none false r

/-- `r*?` (lazy). -/
def rlazystar (r : RE) : RE := .rep 0 none true r

/-- The double-quote character. -/
def qDouble : Char := Char.ofNat 34

/-- The single-quote character. -/
def qSingle : Char := Char.ofNat 39

/-- Ranges of Python `\s` over ASCII: space and `\t`–`\r`. -/
def wspRanges : List (Char × Char) := [(' ', ' '), ('\t', '\r')]

/-- `\s`. -/
def wsp : RE := .cls false wspRanges

/-- `\d`. -/
def digit : RE := .cls false [('0', '9')]

/-- `[A-Za-z0-9]`. -/
def alnumCls : RE := .cls false [('A', 'Z'), ('a', 'z'), ('0', '9')]

/-- `[A-Z0-9]`. -/
def upAlnumCls : RE := .cls false [('A', 'Z'), ('0', '9')]

/-- `[A-Za-z0-9_-]` (JWT body alphabet). -/
def jwtCls : RE := .cls false [('A', 'Z'), ('a', 'z'), ('0', '9'), ('_', '_'), ('-', '-')]

/-- `[A-Za-z0-9/+=]` (AWS secret-key alphabet). -/
def awsCls : RE := .cls false [('A', 'Z'), ('a', 'z'), ('0', '9'), ('/', '/'), ('+', '+'), ('=', '=')]

/-- `[A-Za-z0-9_\-+=/.]` (generic API-key value alphabet). -/
def keyValCls : RE :=
  .cls false [('A', 'Z'), ('a', 'z'), ('0', '9'), ('_', '_'), ('-', '-'),
              ('+', '+'), ('=', '='), ('/', '/'), ('.', '.')]

/-- `["']?` body: a quote character. -/
def quoteCls : RE := .cls false [(qDouble, qDouble), (qSingle, qSingle)]

/-- `[^\s"']` (password value alphabet). -/
def pwValCls : RE := .cls true (wspRanges ++ [(qDouble, qDouble), (qSingle, qSingle)])

/-- `[=:]`. -/
def eqColonCls : RE := .cls false [('=', '='), (':', ':')]

/-- `[_-]`. -/
def usDashCls : RE := .cls false [('_', '_'), ('-', '-')]

/-- `[-\s]` (credit-card separator). -/
def ccSepCls : RE := .cls false (('-', '-') :: wspRanges)

/-- `[\s\S]` (any character, including newline). -/
def anyCls : RE := .cls true []

/-- `[A-Za-z0-9\-]` (Slack token body). -/
def slackCls : RE := .cls false [('A', 'Z'), ('a', 'z'), ('0', '9'), ('-', '-')]

/-! ### The `RedactionPattern` data model (`base_profile.py`) -/

/-- Mirror of the `RedactionPattern` dataclass: a name, a compiled
matcher (with its case-insensitivity flag), a replacement template and a
human-readable description. -/
structure RedactionPattern where
  name : String
  ci : Bool
  matcher : RE
  repl : List Tpl
  description : String

/-- `pattern.pattern.sub(pattern.replacement, s)`. -/
def RedactionPattern.subAll (p : RedactionPattern) (s : String) : String :=
  ⟨reSubAll p.ci p.matcher p.repl s.data⟩

/-- `pattern.pattern.search(s)` as a Boolean. -/
def RedactionPattern.search (p : RedactionPattern) (s : String) : Bool :=
  reSearch p.ci p.matcher s.data

/-! ### The thirteen patterns of `USGlobalProfile.get_patterns` -/

/-- `credit_card`: bare issuer-prefixed digit runs (Visa, Mastercard,
Amex, Discover, JCB) with word boundaries. -/
def ccPattern : RedactionPattern :=
  { name := "credit_card", ci := false,
    matcher := rcat [.wb,
      ralt [rcat [chr '4', rexact 12 digit, ropt (rexact 3 digit)],
            rcat [chr '5', .cls false [('1', '5')], rexact 14 digit],
            rcat [chr '3', .cls false [('4', '4'), ('7', '7')], rexact 13 digit],
            rcat [chr '6', .alt (strLit "011") (rcat [chr '5', rexact 2 digit]),
                  rexact 12 digit],
            rcat [ralt [strLit "2131", strLit "1800",
                        rcat [strLit "35", rexact 3 digit]],
                  rexact 11 digit]],
      .wb],
    repl := [.lit "\x7b\x7bCREDIT_CARD\x7d\x7d".data],
    description := "Credit card number (PCI-DSS)" }

/-- `credit_card_formatted`: `\b(?:\d{4}[-\s]?){3}\d{4}\b`. -/
def ccFmtPattern : RedactionPattern :=
  { name := "credit_card_formatted", ci := false,
    matcher := rcat [.wb, rexact 3 (rcat [rexact 4 digit, ropt ccSepCls]),
                     rexact 4 digit, .wb],
    repl := [.lit "\x7b\x7bCREDIT_CARD\x7d\x7d".data],
    description := "Formatted credit card (with spaces/dashes)" }

/-- `ssn`: `\b(?!000|666|9\d{2})\d{3}-(?!00)\d{2}-(?!0000)\d{4}\b`. -/
def ssnPattern : RedactionPattern :=
  { name := "ssn", ci := false,
    matcher := rcat [.wb,
      .nla (ralt [strLit "000", strLit "666", rcat [chr '9', rexact 2 digit]]),
      rexact 3 digit, chr '-', .nla (strLit "00"), rexact 2 digit, chr '-',
      .nla (strLit "0000"), rexact 4 digit, .wb],
    repl := [.lit "\x7b\x7bSSN\x7d\x7d".data],
    description := "US Social Security Number" }

/-- `ssn_no_dash`: `\b(?!000|666|9\d{2})\d{3}(?!00)\d{2}(?!0000)\d{4}\b`. -/
def ssnNoDashPattern : RedactionPattern :=
  { name := "ssn_no_dash", ci := false,
    matcher := rcat [.wb,
      .nla (ralt [strLit "000", strLit "666", rcat [chr '9', rexact 2 digit]]),
      rexact 3 digit, .nla (strLit "00"), rexact 2 digit,
      .nla (strLit "0000"), rexact 4 digit, .wb],
    repl := [.lit "\x7b\x7bSSN\x7d\x7d".data],
    description := "US SSN without dashes" }

/-- `aws_access_key`: `\b(AKIA|ABIA|ACCA|ASIA)[A-Z0-9]{16}\b`. -/
def awsAccessPattern : RedactionPattern :=
  { name := "aws_access_key", ci := false,
    matcher := rcat [.wb,
      .grp 1 (ralt [strLit "AKIA", strLit "ABIA", strLit "ACCA", strLit "ASIA"]),
      rexact 16 upAlnumCls, .wb],
    repl := [.lit "\x7b\x7bAWS_ACCESS_KEY\x7d\x7d".data],
    description := "AWS Access Key ID" }

/-- `aws_secret_key`: `\b[A-Za-z0-9/+=]{40}\b`. -/
def awsSecretPattern : RedactionPattern :=
  { name := "aws_secret_key", ci := false,
    matcher := rcat [.wb, rexact 40 awsCls, .wb],
    repl := [.lit "\x7b\x7bAWS_SECRET_KEY\x7d\x7d".data],
    description := "Potential AWS Secret Access Key" }

/-- `bearer_token`:
`Bearer\s+eyJ[A-Za-z0-9_-]+\.eyJ[A-Za-z0-9_-]+\.[A-Za-z0-9_-]+`. -/
def bearerPattern : RedactionPattern :=
  { name := "bearer_token", ci := false,
    matcher := rcat [strLit "Bearer", rplus wsp, strLit "eyJ", rplus jwtCls,
                     chr '.', strLit "eyJ", rplus jwtCls, chr '.', rplus jwtCls],
    repl := [.lit "Bearer \x7b\x7bJWT_TOKEN\x7d\x7d".data],
    description := "JWT Bearer token" }

/-- `jwt_token`:
`\beyJ[A-Za-z0-9_-]{10,}\.eyJ[A-Za-z0-9_-]{10,}\.[A-Za-z0-9_-]{10,}\b`. -/
def jwtPattern : RedactionPattern :=
  { name := "jwt_token", ci := false,
    matcher := rcat [.wb, strLit "eyJ", rmin 10 jwtCls, chr '.', strLit "eyJ",
                     rmin 10 jwtCls, chr '.', rmin 10 jwtCls, .wb],
    repl := [.lit "\x7b\x7bJWT_TOKEN\x7d\x7d".data],
    description := "JWT token" }

/-- `api_key_value` (case-insensitive):
`(api[_-]?key|apikey|api[_-]?secret|secret[_-]?key|access[_-]?token|auth[_-]?token)\s*[=:]\s*["']?([A-Za-z0-9_\-+=/.]{16,})["']?`
replaced by `\1={{REDACTED_KEY}}`. -/
def apiKeyPattern : RedactionPattern :=
  { name := "api_key_value", ci := true,
    matcher := rcat [
      .grp 1 (ralt [rcat [strLit "api", ropt usDashCls, strLit "key"],
                    strLit "apikey",
                    rcat [strLit "api", ropt usDashCls, strLit "secret"],
                    rcat [strLit "secret", ropt usDashCls, strLit "key"],
                    rcat [strLit "access", ropt usDashCls, strLit "token"],
                    rcat [strLit "auth", ropt usDashCls, strLit "token"]]),
      .rep 0 none false wsp, eqColonCls, .rep 0 none false wsp,
      ropt quoteCls, .grp 2 (rmin 16 keyValCls), ropt quoteCls],
    repl := [.ref 1, .lit "=\x7b\x7bREDACTED_KEY\x7d\x7d".data],
    description := "API key in key=value format" }

/-- `password` (case-insensitive):
`(password|passwd|pwd)\s*[=:]\s*["']?([^\s"']{4,})["']?`
replaced by `\1={{REDACTED_PASSWORD}}`. -/
def passwordPattern : RedactionPattern :=
  { name := "password", ci := true,
    matcher := rcat [
      .grp 1 (ralt [strLit "password", strLit "passwd", strLit "pwd"]),
      .rep 0 none false wsp, eqColonCls, .rep 0 none false wsp,
      ropt quoteCls, .grp 2 (rmin 4 pwValCls), ropt quoteCls],
    repl := [.ref 1, .lit "=\x7b\x7bREDACTED_PASSWORD\x7d\x7d".data],
    description := "Password in logs" }

/-- `private_key`: PEM block with lazy body,
`-----BEGIN\s+(?:RSA\s+)?PRIVATE\s+KEY-----[\s\S]*?-----END\s+(?:RSA\s+)?PRIVATE\s+KEY-----`. -/
def privateKeyPattern : RedactionPattern :=
  { name := "private_key", ci := false,
    matcher := rcat [strLit "-----BEGIN", rplus wsp,
                     ropt (rcat [strLit "RSA", rplus wsp]),
                     strLit "PRIVATE", rplus wsp, strLit "KEY-----",
                     rlazystar anyCls,
                     strLit "-----END", rplus wsp,
                     ropt (rcat [strLit "RSA", rplus wsp]),
                     strLit "PRIVATE", rplus wsp, strLit "KEY-----"],
    repl := [.lit "\x7b\x7bPRIVATE_KEY_REDACTED\x7d\x7d".data],
    description := "Private key block" }

/-- `github_token`: `\b(gh[pours]_ ... 36 alphanumerics)\b` for the five
GitHub token prefixes. -/
def githubPattern : RedactionPattern :=
  { name := "github_token", ci := false,
    matcher := rcat [.wb,
      .grp 1 (ralt [rcat [strLit "ghp_", rexact 36 alnumCls],
                    rcat [strLit "gho_", rexact 36 alnumCls],
                    rcat [strLit "ghu_", rexact 36 alnumCls],
                    rcat [strLit "ghs_", rexact 36 alnumCls],
                    rcat [strLit "ghr_", rexact 36 alnumCls]]),
      .wb],
    repl := [.lit "\x7b\x7bGITHUB_TOKEN\x7d\x7d".data],
    description := "GitHub personal access token" }

/-- `slack_token`: `\b(xox[baprs]-[A-Za-z0-9\-]+)\b`. -/
def slackPattern : RedactionPattern :=
  { name := "slack_token", ci := false,
    matcher := rcat [.wb,
      .grp 1 (rcat [strLit "xox",
                    .cls false [('b', 'b'), ('a', 'a'), ('p', 'p'), ('r', 'r'), ('s', 's')],
                    chr '-', rplus slackCls]),
      .wb],
    repl := [.lit "\x7b\x7bSLACK_TOKEN\x7d\x7d".data],
    description := "Slack API token" }

/-- The list returned by `USGlobalProfile.get_patterns`, in source
order. -/
def usGlobalPatterns : List RedactionPattern :=
  [ccPattern, ccFmtPattern, ssnPattern, ssnNoDashPattern, awsAccessPattern,
   awsSecretPattern, bearerPattern, jwtPattern, apiKeyPattern,
   passwordPattern, privateKeyPattern, githubPattern, slackPattern]

/-! ### Profiles and the `RedactionEngine` (`engine.py`) -/

/-- One pattern as the engine sees it: a name and the substitution call
`pattern.pattern.sub(pattern.replacement, ·)`.  The call is
`Option`-valued because the Python call can raise; `none` models a raised
exception, caught by the engine's per-pattern `try`/`except`. -/
structure ProfilePattern where
  name : String
  sub : String → Option String

/-- The substitution of a concrete `RedactionPattern` never raises. -/
def RedactionPattern.toApp (p : RedactionPattern) : ProfilePattern :=
  ⟨p.name, fun t => some (p.subAll t)⟩

/-- Mirror of `ComplianceProfile`: name, description, the sequence
`get_patterns()` returns, and the supplemental scrubadub detectors
`get_scrubadub_detectors()` returns (kept abstract as tokens). -/
structure ComplianceProfile where
  name : String
  description : String
  patterns : List ProfilePattern
  scrubadubDetectors : List String

/-- `USGlobalProfile()` with its `get_patterns` result. -/
def usGlobalProfile : ComplianceProfile :=
  { name := "us_global",
    description := "US and global compliance patterns (PCI-DSS, credentials, common PII)",
    patterns := usGlobalPatterns.map RedactionPattern.toApp,
    scrubadubDetectors := [] }

/-- Engine state: the profile dict (Python insertion order preserved)
and the shared scrubber's registered supplemental detectors. -/
structure Engine where
  profiles : List ComplianceProfile
  scrubDetectors : List String

namespace Engine

/-- `RedactionEngine.load_profile`: insert by name, replacing in place
when the name is already present (Python `dict` assignment keeps the
original insertion position), then register the profile's supplemental
scrubadub detectors into the shared scrubber. -/
def load_profile (e : Engine) (p : ComplianceProfile) : Engine :=
  { profiles :=
      if e.profiles.any (fun q => q.name = p.name) then
        e.profiles.map (fun q => if q.name = p.name then p else q)
      else
        e.profiles ++ [p],
    scrubDetectors := e.scrubDetectors ++ p.scrubadubDetectors }

/-- `RedactionEngine.__init__`: empty profile dict and scrubber, then
optionally load the default US/Global profile. -/
def init (loadDefault : Bool) : Engine :=
  let e : Engine := ⟨[], []⟩
  if loadDefault then e.load_profile usGlobalProfile else e

/-- `RedactionEngine.unload_profile`: delete by name when present and
report whether a removal happened.  Returns the updated engine together
with the Boolean result. -/
def unload_profile (e : Engine) (n : String) : Engine × Bool :=
  if e.profiles.any (fun q => q.name = n) then
    ({ e with profiles := e.profiles.filter (fun q => q.name ≠ n) }, true)
  else
    (e, false)

/-- `RedactionEngine.list_profiles`. -/
def list_profiles (e : Engine) : List String :=
  e.profiles.map (fun q => q.name)

/-- Apply one pattern under the engine's `try`/`except`: a raised
substitution (`none`) leaves the text as it was. -/
def tryPattern (pp : ProfilePattern) (t : String) : String :=
  match pp.sub t with
  | some t2 => t2
  | none => t

/-- The inner loop of `redact` step 2 for one profile's pattern list. -/
def applyPatternList (ps : List ProfilePattern) (t : String) : String :=
  ps.foldl (fun acc pp => tryPattern pp acc) t

/-- `redact` step 1: `self._scrubber.clean(text)` under `try`/`except`;
a detector that raises (`none`) leaves the text unchanged. -/
def detectorStage (det : String → Option String) (t : String) : String :=
  match det t with
  | some t2 => t2
  | none => t

/-- `RedactionEngine.redact`.  The input is `Option String` so that the
Python `None` pass-through (`if not text`) is representable: `none` and
`some ""` are the falsy inputs returned unchanged with `changed = false`.
The scrubadub call is the parameter `det` (the external detector is
opaque; `none` models a raised exception). -/
def redact (det : String → Option String) (e : Engine) :
    Option String → Option String × Bool
  | none => (none, false)
  | some s =>
    if s = "" then (some s, false)
    else
      let t1 := detectorStage det s
      let t2 := e.profiles.foldl (fun acc p => applyPatternList p.patterns acc) t1
      (some t2, t2 != s)

/-- One iteration of the `redact_batch` loop: append the redacted text,
OR in the changed flag. -/
def batchStep (det : String → Option String) (e : Engine)
    (acc : List (Option String) × Bool) (t : Option String) :
    List (Option String) × Bool :=
  let r := redact det e t
  (acc.1 ++ [r.1], acc.2 || r.2)

/-- `RedactionEngine.redact_batch`: fold over the inputs accumulating
the redacted texts in order and the OR of the per-item changed flags. -/
def redact_batch (det : String → Option String) (e : Engine)
    (ts : List (Option String)) : List (Option String) × Bool :=
  ts.foldl (batchStep det e) ([], false)

end Engine

/-- The redaction pipeline as §4.3 of the specification words it: the
generic detector stage first, then for each loaded profile in order,
each of its patterns in order, every substitution acting on the output
of the previous stage.  Used to state the refinement claim C2 against
`Engine.redact`. -/
def specOrderedPipeline (det : String → Option String) (e : Engine)
    (t : String) : String :=
  (e.profiles.foldl (fun acc p => Engine.applyPatternList p.patterns acc)
    (Engine.detectorStage det t))

/-- `USGlobalProfile.get_patterns` as the zero-argument method the
source defines: called afresh on every `redact` invocation
(`engine.py` line 135), it rebuilds—and in Python re-compiles—the same
thirteen-pattern list each time. -/
def usGlobal_get_patterns : Unit → List RedactionPattern :=
  fun _ => usGlobalPatterns

/-! ### Concrete scenario inputs used by the theorems -/

/-- Spec §8 scenario 3 input. -/
def pwScenario : String := "password=mysecretpass123"

/-- The redacted password line, `password={{REDACTED_PASSWORD}}`. -/
def pwRedacted : String := "password=\x7b\x7bREDACTED_PASSWORD\x7d\x7d"

/-- Spec §8 scenario 1 input. -/
def cardScenario : String := "Payment with card: 4111111111111111"

/-- The redacted card line, `Payment with card: {{CREDIT_CARD}}`. -/
def cardRedacted : String := "Payment with card: \x7b\x7bCREDIT_CARD\x7d\x7d"

/-- `password=abcd` followed by a single-quote character and `x`: the
quote is consumed by the password pattern's trailing optional quote, so
the first pass leaves an `x` residue after the replacement token. -/
def pwResidueInput : String := "password=abcd" ++ ⟨[qSingle]⟩ ++ "x"

/-! ## Shared helper lemmas -/

/-- Unfolding of `redact` on a non-empty string: detector stage, then
the profile/pattern folds, then the changed flag against the original. -/
theorem redact_some_eq (det : String → Option String) (e : Engine)
    (s : String) (h : s ≠ "") :
    Engine.redact det e (some s) =
      (some (specOrderedPipeline det e s), specOrderedPipeline det e s != s) := by
  rw [show Engine.redact det e (some s) =
        if s = "" then (some s, false)
        else (some (specOrderedPipeline det e s), specOrderedPipeline det e s != s)
      from rfl,
      if_neg h]

/-- Splitting the pattern fold across an append. -/
theorem applyPatternList_append (ps qs : List ProfilePattern) (t : String) :
    Engine.applyPatternList (ps ++ qs) t =
      Engine.applyPatternList qs (Engine.applyPatternList ps t) := by
  unfold Engine.applyPatternList
  rw [List.foldl_append]

/-- Loading a list of profiles whose names are fresh and pairwise
distinct appends them to the profile dict in load order. -/
theorem load_all_fresh (ps : List ComplianceProfile) :
    ∀ e : Engine, (∀ p ∈ ps, ∀ q ∈ e.profiles, q.name ≠ p.name) →
      ps.Pairwise (fun a b => a.name ≠ b.name) →
      (ps.foldl Engine.load_profile e).profiles = e.profiles ++ ps := by
  induction ps with
  | nil => intro e _ _; simp
  | cons p ps ih =>
    intro e hfresh hpw
    have hany : e.profiles.any (fun q => q.name = p.name) = false := by
      rw [List.any_eq_false]
      intro q hq
      simpa using hfresh p (List.mem_cons_self p ps) q hq
    have hload : (e.load_profile p).profiles = e.profiles ++ [p] := by
      unfold Engine.load_profile
      rw [hany]
      rfl
    rw [List.foldl_cons]
    have hfresh2 : ∀ r ∈ ps, ∀ q ∈ (e.load_profile p).profiles, q.name ≠ r.name := by
      intro r hr q hq
      rw [hload] at hq
      rcases List.mem_append.mp hq with hq1 | hq2
      · exact hfresh r (List.mem_cons_of_mem p hr) q hq1
      · have : q = p := by simpa using hq2
        subst this
        exact (List.pairwise_cons.mp hpw).1 r hr
    rw [ih (e.load_profile p) hfresh2 (List.pairwise_cons.mp hpw).2, hload]
    simp

/-- Accumulator generalisation of the `redact_batch` fold. -/
theorem batch_fold_eq (det : String → Option String) (e : Engine) :
    ∀ (ts : List (Option String)) (acc : List (Option String)) (b : Bool),
      ts.foldl (Engine.batchStep det e) (acc, b) =
        (acc ++ ts.map (fun t => (Engine.redact det e t).1),
         b || ts.any (fun t => (Engine.redact det e t).2)) := by
  intro ts
  induction ts with
  | nil => intro acc b; simp
  | cons t ts ih =>
    intro acc b
    rw [List.foldl_cons]
    show (ts.foldl (Engine.batchStep det e)
      (acc ++ [(Engine.redact det e t).1], b || (Engine.redact det e t).2)) = _
    rw [ih]
    simp [Bool.or_assoc]

/-! ## Claims -/

/-- C1: per-item failures never escape `redact`.  First conjunct: when
the generic detector call raises (`det s = none`), the engine proceeds
with the profile-pattern stage on the original, unmodified text.  Second
conjunct: when a single pattern's substitution raises at its turn, that
pattern alone is skipped and every remaining pattern still runs on the
text produced so far. -/
theorem redact_recovers_failures :
    (∀ (det : String → Option String) (e : Engine) (s : String), s ≠ "" →
      det s = none →
      Engine.redact det e (some s) =
        (some (e.profiles.foldl (fun acc p => Engine.applyPatternList p.patterns acc) s),
         (e.profiles.foldl (fun acc p => Engine.applyPatternList p.patterns acc) s) != s)) ∧
    (∀ (pre post : List ProfilePattern) (pp : ProfilePattern) (t : String),
      pp.sub (Engine.applyPatternList pre t) = none →
      Engine.applyPatternList (pre ++ pp :: post) t =
        Engine.applyPatternList post (Engine.applyPatternList pre t)) := by
  constructor
  · intro det e s hs hdet
    rw [redact_some_eq det e s hs]
    unfold specOrderedPipeline Engine.detectorStage
    rw [hdet]
  · intro pre post pp t hfail
    have hsplit : Engine.applyPatternList (pre ++ pp :: post) t =
        Engine.applyPatternList (pp :: post) (Engine.applyPatternList pre t) :=
      applyPatternList_append pre (pp :: post) t
    rw [hsplit]
    unfold Engine.applyPatternList
    rw [List.foldl_cons]
    have : Engine.tryPattern pp (Engine.applyPatternList pre t) =
        Engine.applyPatternList pre t := by
      unfold Engine.tryPattern
      rw [hfail]
    unfold Engine.applyPatternList at this
    rw [this]

/-- C1 witness: a detector that raises on `"x"` leaves the text to the
(empty) pattern stage, and a pattern whose substitution raises is
skipped. -/
theorem redact_recovers_failures_witness :
    Engine.redact (fun _ => none) (Engine.init false) (some "x") =
      (some ((Engine.init false).profiles.foldl
        (fun acc p => Engine.applyPatternList p.patterns acc) "x"),
       ((Engine.init false).profiles.foldl
        (fun acc p => Engine.applyPatternList p.patterns acc) "x") != "x") ∧
    Engine.applyPatternList ([] ++ (⟨"boom", fun _ => none⟩ : ProfilePattern) :: []) "a" =
      Engine.applyPatternList [] (Engine.applyPatternList [] "a") :=
  ⟨redact_recovers_failures.1 (fun _ => none) (Engine.init false) "x" (by decide) rfl,
   redact_recovers_failures.2 [] [] ⟨"boom", fun _ => none⟩ "a" rfl⟩

/-- C2: on every non-empty input `redact` applies the generic detector
stage first and then every loaded profile's patterns, profile by profile
in load order and pattern by pattern in `get_patterns` order, each
substitution acting on the previous output (first conjunct, against the
pipeline written from the specification's words); and loading pairwise
distinct fresh profiles puts them in the engine in load order (second
conjunct). -/
theorem redact_stage_order :
    (∀ (det : String → Option String) (e : Engine) (s : String), s ≠ "" →
      Engine.redact det e (some s) =
        (some (specOrderedPipeline det e s), specOrderedPipeline det e s != s)) ∧
    (∀ ps : List ComplianceProfile, ps.Pairwise (fun a b => a.name ≠ b.name) →
      (ps.foldl Engine.load_profile (Engine.init false)).profiles = ps) := by
  constructor
  · exact redact_some_eq
  · intro ps hpw
    have h0 : (Engine.init false).profiles = [] := rfl
    have := load_all_fresh ps (Engine.init false)
      (by intro p _ q hq; rw [h0] at hq; cases hq) hpw
    rw [this, h0]
    simp

/-- C2 witness: instantiated at the default scrubber behaviour, the
default engine, input `"a"`, and the singleton profile list. -/
theorem redact_stage_order_witness :
    Engine.redact some (Engine.init true) (some "a") =
      (some (specOrderedPipeline some (Engine.init true) "a"),
       specOrderedPipeline some (Engine.init true) "a" != "a") ∧
    ([usGlobalProfile].foldl Engine.load_profile (Engine.init false)).profiles =
      [usGlobalProfile] :=
  ⟨redact_stage_order.1 some (Engine.init true) "a" (by decide),
   redact_stage_order.2 [usGlobalProfile] (List.pairwise_singleton _ _)⟩

set_option maxRecDepth 100000

/-- C3 counterexample: the claim that the returned text contains no
single-pass match of any loaded pattern (except matches created by a
*different* pattern's substitution) is false.  On `password=abcd` the
password pattern alone produces `password={{REDACTED_PASSWORD}}`, the
default engine returns exactly that text, and the password matcher still
matches it — a residual match created by the pattern's *own*
substitution, which the claim does not exempt. -/
theorem redact_single_pass_cex :
    passwordPattern.subAll "password=abcd" = pwRedacted ∧
    passwordPattern.search pwRedacted = true ∧
    Engine.redact some (Engine.init true) (some "password=abcd") =
      (some pwRedacted, true) := by
  refine ⟨by decide, by decide, by decide⟩

/-- C3 amended: a pattern's own replacement may itself satisfy the
pattern's matcher, so residual matches arising from any substitution
(including the same pattern's) must be exempted; when the redacted
output contains no such replacement-induced match — as for the card
scenario — no loaded pattern matches the returned text. -/
theorem redact_single_pass_amended :
    Engine.redact some (Engine.init true) (some cardScenario) =
      (some cardRedacted, true) ∧
    usGlobalPatterns.all (fun p => !(p.search cardRedacted)) = true := by
  refine ⟨by decide, by decide⟩

/-- C4 counterexample: `redact` is not idempotent, and the per-pattern
fixed-point property fails.  On `password=abcd'x` the password pattern's
first substitution consumes the quote and leaves the residue `x` after
the replacement token; a second application of the same single pattern
absorbs the residue and changes the text again, and the full default
engine behaves the same way across two `redact` passes. -/
theorem redact_idempotent_cex :
    passwordPattern.subAll pwResidueInput = pwRedacted ++ "x" ∧
    passwordPattern.subAll (passwordPattern.subAll pwResidueInput) = pwRedacted ∧
    passwordPattern.subAll (passwordPattern.subAll pwResidueInput) ≠
      passwordPattern.subAll pwResidueInput ∧
    (Engine.redact some (Engine.init true)
        ((Engine.redact some (Engine.init true) (some pwResidueInput)).1)).1 ≠
      (Engine.redact some (Engine.init true) (some pwResidueInput)).1 := by
  refine ⟨by decide, by decide, by decide, by decide⟩

/-- C4 amended: a second pass can change the text further when a
pattern's substitution leaves a residue its matcher re-absorbs, so
idempotence holds only on inputs whose first-pass output is a fixed
point; in particular it holds on the specification's scenario inputs:
re-redacting the redacted password line and the redacted card line
changes nothing. -/
theorem redact_idempotent_amended :
    Engine.redact some (Engine.init true) (some pwScenario) =
      (some pwRedacted, true) ∧
    Engine.redact some (Engine.init true) (some pwRedacted) =
      (some pwRedacted, false) ∧
    Engine.redact some (Engine.init true) (some cardRedacted) =
      (some cardRedacted, false) := by
  refine ⟨by decide, by decide, by decide⟩

/-- C5: `redact_batch` maps `redact` over the inputs in order (same
length, element-wise equal), its flag is the OR of the per-item changed
flags, and the empty batch yields the empty list with a false flag. -/
theorem redact_batch_spec :
    ∀ (det : String → Option String) (e : Engine) (ts : List (Option String)),
      Engine.redact_batch det e ts =
        (ts.map (fun t => (Engine.redact det e t).1),
         ts.any (fun t => (Engine.redact det e t).2)) ∧
      (Engine.redact_batch det e ts).1.length = ts.length ∧
      Engine.redact_batch det e [] = ([], false) := by
  intro det e ts
  have hmain : Engine.redact_batch det e ts =
      (ts.map (fun t => (Engine.redact det e t).1),
       ts.any (fun t => (Engine.redact det e t).2)) := by
    unfold Engine.redact_batch
    rw [batch_fold_eq det e ts [] false]
    simp
  refine ⟨hmain, ?_, rfl⟩
  rw [hmain]
  simp

/-- C6: the falsy inputs are passed through with no work: `redact` of
`none` (Python `None`) and of the empty string returns the input
unchanged with `changed = false`, for every detector and engine — the
quantifiers witness that neither the detector nor any pattern is
consulted. -/
theorem redact_falsy_passthrough :
    ∀ (det : String → Option String) (e : Engine),
      Engine.redact det e none = (none, false) ∧
      Engine.redact det e (some "") = (some "", false) := by
  intro det e
  exact ⟨rfl, rfl⟩

/-- C7: on `password=mysecretpass123`, with the scrubadub stage leaving
the text unchanged, the default engine returns exactly
`password={{REDACTED_PASSWORD}}` with `changed = true`: the key name is
preserved and only the value is replaced. -/
theorem redact_password_scenario :
    ∀ det : String → Option String, det pwScenario = some pwScenario →
      Engine.redact det (Engine.init true) (some pwScenario) =
        (some pwRedacted, true) := by
  intro det h
  rw [redact_some_eq det (Engine.init true) pwScenario (by decide)]
  unfold specOrderedPipeline Engine.detectorStage
  rw [h]
  decide

/-- C7 witness: instantiated with the detector that returns its input. -/
theorem redact_password_scenario_witness :
    Engine.redact some (Engine.init true) (some pwScenario) =
      (some pwRedacted, true) :=
  redact_password_scenario some rfl

/-- C8 (value level): `get_patterns` is deterministic — it returns the
same thirteen-pattern sequence, in the same order, on every call.  (The
claim's compile-once clause is refuted by the source itself: `redact`
calls `get_patterns()` on every invocation, rebuilding and re-compiling
the patterns; see the results entry.) -/
theorem usGlobal_get_patterns_stable :
    (∀ u v : Unit, usGlobal_get_patterns u = usGlobal_get_patterns v) ∧
    (usGlobal_get_patterns ()).map RedactionPattern.name =
      ["credit_card", "credit_card_formatted", "ssn", "ssn_no_dash",
       "aws_access_key", "aws_secret_key", "bearer_token", "jwt_token",
       "api_key_value", "password", "private_key", "github_token",
       "slack_token"] :=
  ⟨fun _ _ => rfl, by decide⟩

/-- C9: `unload_profile` returns `true` exactly when the name is loaded
and then removes that entry; an unknown name returns `false` with the
engine — hence `list_profiles` — unchanged; and in no case are the
supplemental scrubadub detectors deregistered. -/
theorem unload_profile_spec :
    ∀ (e : Engine) (n : String),
      ((e.unload_profile n).2 = true ↔ n ∈ e.list_profiles) ∧
      (n ∈ e.list_profiles →
        (e.unload_profile n).1.profiles = e.profiles.filter (fun q => q.name ≠ n)) ∧
      (n ∉ e.list_profiles → e.unload_profile n = (e, false)) ∧
      (e.unload_profile n).1.scrubDetectors = e.scrubDetectors := by
  intro e n
  have hmem : (e.profiles.any (fun q => q.name = n) = true) ↔ n ∈ e.list_profiles := by
    unfold Engine.list_profiles
    rw [List.any_eq_true]
    constructor
    · rintro ⟨q, hq, hqn⟩
      have hq2 : q.name = n := by simpa using hqn
      exact hq2 ▸ List.mem_map_of_mem (fun p => p.name) hq
    · intro hn
      rcases List.mem_map.mp hn with ⟨q, hq, hqn⟩
      exact ⟨q, hq, by simpa using hqn⟩
  by_cases h : e.profiles.any (fun q => q.name = n) = true
  · have hu : e.unload_profile n =
        ({ e with profiles := e.profiles.filter (fun q => q.name ≠ n) }, true) := by
      unfold Engine.unload_profile
      rw [if_pos h]
    refine ⟨?_, fun _ => by rw [hu], fun hn => absurd (hmem.mp h) hn, by rw [hu]⟩
    rw [hu]
    simpa using hmem.mp h
  · have hu : e.unload_profile n = (e, false) := by
      unfold Engine.unload_profile
      rw [if_neg h]
    refine ⟨?_, fun hn => absurd hn ?_, fun _ => hu, by rw [hu]⟩
    · rw [hu]
      simp only [Bool.false_eq_true, false_iff]
      intro hn
      exact h (hmem.mpr hn)
    · intro hn
      exact h (hmem.mpr hn)

/-- C9 witness: unloading `"nonexistent"` from the default engine
returns `false` and leaves the engine untouched. -/
theorem unload_profile_spec_witness :
    Engine.unload_profile (Engine.init true) "nonexistent" = (Engine.init true, false) :=
  (unload_profile_spec (Engine.init true) "nonexistent").2.2.1 (by decide)

/-- C10: the default-constructed engine starts with exactly the
`us_global` profile, construction with `load_default_profile = False`
starts with none, and with no profiles loaded `redact` still applies the
generic detector stage (its result is the detector stage's output). -/
theorem init_profiles_spec :
    Engine.list_profiles (Engine.init true) = ["us_global"] ∧
    Engine.list_profiles (Engine.init false) = [] ∧
    (∀ (det : String → Option String) (s : String), s ≠ "" →
      Engine.redact det (Engine.init false) (some s) =
        (some (Engine.detectorStage det s), Engine.detectorStage det s != s)) := by
  refine ⟨rfl, rfl, ?_⟩
  intro det s hs
  rw [redact_some_eq det (Engine.init false) s hs]
  rfl

/-- C10 witness: with no profiles, a detector that rewrites `"x"` to
`"D"` is still applied. -/
theorem init_profiles_spec_witness :
    Engine.redact (fun _ => some "D") (Engine.init false) (some "x") =
      (some (Engine.detectorStage (fun _ => some "D") "x"),
       Engine.detectorStage (fun _ => some "D") "x" != "x") :=
  init_profiles_spec.2.2 (fun _ => some "D") "x" (by decide)

end LogSentinel
